import Mathlib

/-!
Verification development for the OpenPGM transport core
(src/openpgm/pgm/transport.c).  Each definition is a shallow embedding of
one function or code fragment of transport.c; machine integers are
modelled as Nat (with explicit mod where wrap matters), times are
monotonic microsecond counts, and the consumed window/table interfaces
are modelled as emitted events.
-/

namespace OpenPGM

/-- The errno constant EINVAL; the source returns -EINVAL on invalid input. -/
def EINVAL : Int := 22

/-- Largest value of a 32-bit signed int, glib G_MAXINT. -/
def G_MAXINT : Int := 2147483647

/-- The O_NONBLOCK file status flag bit (bit 11 on Linux). -/
def O_NONBLOCK : Nat := 2048

/-! ### pgm_set_nonblocking (transport.c lines 340-372)

The kernel side of fcntl is modelled as the flag words of the two pipe
descriptors; F_GETFL returns the stored word and F_SETFL stores a word.
The source reads the write-end flags into fd_flags, sets the write end,
then issues an F_GETFL on the read end whose result is discarded
(line 359) and applies the stale fd_flags word from the write end to the
read end. -/

/-- File status flag words of the two ends of a pipe: index 0 is the read
end filedes[0], index 1 the write end filedes[1]. -/
structure PipeFlags where
  readEnd : Nat
  writeEnd : Nat
deriving DecidableEq, Repr

/-- Shallow embedding of pgm_set_nonblocking (lines 340-372).  Returns the
C return value together with the final flag words. -/
def pgm_set_nonblocking (p : PipeFlags) : Int × PipeFlags :=
  -- int fd_flags = fcntl (filedes[1], F_GETFL);
  let fd_flags := p.writeEnd
  -- retval = fcntl (filedes[1], F_SETFL, fd_flags | O_NONBLOCK);
  let p1 : PipeFlags := { p with writeEnd := fd_flags ||| O_NONBLOCK }
  -- fcntl (filedes[0], F_GETFL);   /* line 359: result discarded */
  let _ := p1.readEnd
  -- if (fd_flags < 0) ... : fd_flags is the write-end word, non-negative here
  -- retval = fcntl (filedes[0], F_SETFL, fd_flags | O_NONBLOCK);
  let p2 : PipeFlags := { p1 with readEnd := fd_flags ||| O_NONBLOCK }
  (0, p2)

/-! ### nak_rb_ivl and the BACK_OFF expiry (transport.c lines 251-259, 6459) -/

/-- Modelled from the spec: g_rand_int_range comes from glib, outside this
repository; the spec describes the draw as uniform over the half-open
interval, nak_rb_expiry = now + U(1, nak_bo_ivl).  A raw generator output
is reduced onto the range begin + raw mod (end - begin). -/
def g_rand_int_range (raw lo hi : Nat) : Nat := lo + raw % (hi - lo)

/-- nak_rb_ivl (lines 253-259): random time interval 1 .. NAK_BO_IVL,
computed as g_rand_int_range (rand_, 1, nak_bo_ivl). -/
def nak_rb_ivl (raw bo_ivl : Nat) : Nat := g_rand_int_range raw 1 bo_ivl

/-- The BACK_OFF expiry assigned by on_odata for fresh placeholders
(line 6459): nak_rb_expiry = pgm_time_update_now () + nak_rb_ivl. -/
def on_odata_nak_rb_expiry (now raw bo_ivl : Nat) : Nat :=
  now + nak_rb_ivl raw bo_ivl

/-! ### Configuration setters (transport.c lines 1309-1402, 6134-6208)

The configuration slice of pgm_transport_t touched by the setters.  Each
setter mirrors the g_return_val_if_fail guards of its C function and the
field writes performed under the transport mutex. -/

/-- Configuration fields of pgm_transport_t consulted by the setters. -/
structure TransportConfig where
  is_bound : Bool
  nak_bo_ivl : Nat
  nak_rpt_ivl : Nat
  nak_rdata_ivl : Nat
  nak_data_retries : Nat
  nak_ncf_retries : Nat
  use_proactive_parity : Bool
  use_ondemand_parity : Bool
  use_varpkt_len : Bool
  rs_n : Nat
  rs_k : Nat
  tg_sqn_shift : Nat
  can_send : Bool
  can_recv : Bool
  is_passive : Bool
deriving DecidableEq, Repr

/-- pgm_power2_log2 (lines 238-249): bit-mask log2 of a power of two. -/
def pgm_power2_log2 (v : Nat) : Nat :=
  let bit (m : Nat) : Nat := if v &&& m != 0 then 1 else 0
  -- r initialised from b[0]; loop i = 4 down to 1 ors in (bit b[i]) << i
  bit 0xAAAAAAAA ||| (bit 0xFFFF0000 <<< 4) ||| (bit 0xFF00FF00 <<< 3) |||
    (bit 0xF0F0F0F0 <<< 2) ||| (bit 0xCCCCCCCC <<< 1)

/-- pgm_transport_set_nak_bo_ivl (lines 1309-1323): guarded by is_bound. -/
def pgm_transport_set_nak_bo_ivl (t : TransportConfig) (usec : Nat) :
    Int × TransportConfig :=
  if t.is_bound then (-EINVAL, t) else (0, { t with nak_bo_ivl := usec })

/-- pgm_transport_set_nak_rpt_ivl (lines 1329-1343): guarded by is_bound. -/
def pgm_transport_set_nak_rpt_ivl (t : TransportConfig) (usec : Nat) :
    Int × TransportConfig :=
  if t.is_bound then (-EINVAL, t) else (0, { t with nak_rpt_ivl := usec })

/-- pgm_transport_set_nak_rdata_ivl (lines 1349-1363): guarded by is_bound. -/
def pgm_transport_set_nak_rdata_ivl (t : TransportConfig) (usec : Nat) :
    Int × TransportConfig :=
  if t.is_bound then (-EINVAL, t) else (0, { t with nak_rdata_ivl := usec })

/-- pgm_transport_set_nak_data_retries (lines 1369-1383): guarded by is_bound. -/
def pgm_transport_set_nak_data_retries (t : TransportConfig) (cnt : Nat) :
    Int × TransportConfig :=
  if t.is_bound then (-EINVAL, t) else (0, { t with nak_data_retries := cnt })

/-- pgm_transport_set_nak_ncf_retries (lines 1388-1402): guarded by is_bound. -/
def pgm_transport_set_nak_ncf_retries (t : TransportConfig) (cnt : Nat) :
    Int × TransportConfig :=
  if t.is_bound then (-EINVAL, t) else (0, { t with nak_ncf_retries := cnt })

/-- pgm_transport_set_fec (lines 6134-6172).  Validates k a power of two in
2..128, n in k+1..255 and the k/h ratio, then writes the FEC fields.  The
C function has no is_bound guard. -/
def pgm_transport_set_fec (t : TransportConfig)
    (use_proactive_parity use_ondemand_parity use_varpkt_len : Bool)
    (default_n default_k : Nat) : Int × TransportConfig :=
  if ¬ (default_k &&& (default_k - 1) = 0) then (-EINVAL, t)
  else if ¬ (2 ≤ default_k ∧ default_k ≤ 128) then (-EINVAL, t)
  else if ¬ (default_k + 1 ≤ default_n ∧ default_n ≤ 255) then (-EINVAL, t)
  else
    let default_h := default_n - default_k
    -- if (default_k > 223 && (default_h * 223.0) / default_k < 1.0)
    if 223 < default_k ∧ default_h * 223 < default_k then (-EINVAL, t)
    else (0, { t with
      use_proactive_parity := use_proactive_parity,
      use_ondemand_parity := use_ondemand_parity,
      use_varpkt_len := use_varpkt_len,
      rs_n := default_n,
      rs_k := default_k,
      tg_sqn_shift := pgm_power2_log2 default_k })

/-- pgm_transport_set_send_only (lines 6177-6189).  Clears can_recv; the C
function has no is_bound guard. -/
def pgm_transport_set_send_only (t : TransportConfig) : Int × TransportConfig :=
  (0, { t with can_recv := false })

/-- pgm_transport_set_recv_only (lines 6194-6208).  Clears can_send and
records is_passive; the C function has no is_bound guard. -/
def pgm_transport_set_recv_only (t : TransportConfig) (is_passive : Bool) :
    Int × TransportConfig :=
  (0, { t with can_send := false, is_passive := is_passive })

/-- A concrete transport configuration that has been bound. -/
def boundConfig : TransportConfig :=
  { is_bound := true, nak_bo_ivl := 100, nak_rpt_ivl := 200,
    nak_rdata_ivl := 300, nak_data_retries := 5, nak_ncf_retries := 5,
    use_proactive_parity := false, use_ondemand_parity := false,
    use_varpkt_len := false, rs_n := 0, rs_k := 0, tg_sqn_shift := 0,
    can_send := true, can_recv := true, is_passive := false }

/-! ### Send descriptor selection (pgm_sendto call sites)

Each packet-emitting function calls pgm_sendto with a use_rate_limit and a
use_router_alert argument; the pair below records the literal arguments of
each call site. -/

/-- The pgm_sendto options used at one call site. -/
structure SendOp where
  use_rate_limit : Bool
  use_router_alert : Bool
deriving DecidableEq, Repr

/-- send_spm_unlocked, pgm_sendto at line 3542: rate limited, router alert. -/
def send_spm_sendto : SendOp := ⟨true, true⟩

/-- send_spmr, pgm_sendto at lines 3596 and 3608: both on the regular
socket, no router alert. -/
def send_spmr_sendto : SendOp := ⟨false, false⟩

/-- send_nak, pgm_sendto at line 3675: router alert. -/
def send_nak_sendto : SendOp := ⟨false, true⟩

/-- send_ncf, pgm_sendto at line 3737: router alert. -/
def send_ncf_sendto : SendOp := ⟨false, true⟩

/-- send_parity_nak, pgm_sendto at line 3803: router alert. -/
def send_parity_nak_sendto : SendOp := ⟨false, true⟩

/-- send_nak_list, pgm_sendto at line 3906: regular socket, the
use_router_alert argument is FALSE. -/
def send_nak_list_sendto : SendOp := ⟨false, false⟩

/-- send_ncf_list, pgm_sendto at line 4004: router alert. -/
def send_ncf_list_sendto : SendOp := ⟨false, true⟩

/-- pgm_transport_send_one_unlocked (ODATA), pgm_sendto at line 4758:
regular socket.  The other ODATA emission paths (lines 4835, 4955, 5080,
5255, 5412, 5639, 5905) pass the same pair. -/
def send_odata_sendto : SendOp := ⟨true, false⟩

/-- send_rdata, pgm_sendto at line 6088: rate limited, router alert. -/
def send_rdata_sendto : SendOp := ⟨true, true⟩

/-! ### on_spm (transport.c lines 2830-2952)

The peer state touched by on_spm, the SPM body, and the receive-window
update call.  pgm_rxw_window_update is a consumed interface; its call is
recorded as an event rather than interpreted. -/

/-- Modelled from the spec: pgm_uint32_gte lives in a header outside src.
The spec states an incoming SPM is accepted only if its sqn is
greater-equal the last seen, comparing modulo 2^32: serial-number
greater-or-equal, true when the forward distance from b to a is below
half the space (in particular true when a = b). -/
def pgm_uint32_gte (a b : Nat) : Bool :=
  (a + 2 ^ 32 - b % 2 ^ 32) % 2 ^ 32 < 2 ^ 31

/-- The slice of pgm_peer_t read and written by on_spm.  nla_set models
whether the stored sockaddr family is nonzero (an NLA has been learned). -/
structure PeerSpm where
  nla_set : Bool
  nla : Nat
  spm_sqn : Nat
  dup_spms : Nat
  packets_discarded : Nat
  expiry : Nat
  spmr_expiry : Nat
deriving DecidableEq, Repr

/-- The host-order body of a verified SPM packet. -/
structure SpmPacket where
  spm_sqn : Nat
  spm_nla : Nat
  spm_trail : Nat
  spm_lead : Nat
deriving DecidableEq, Repr

/-- Arguments of the pgm_rxw_window_update call issued by on_spm. -/
structure WindowUpdateCall where
  trail : Nat
  lead : Nat
  nak_rb_expiry : Nat
deriving DecidableEq, Repr

/-- Shallow embedding of on_spm (lines 2830-2952) for a packet that passes
pgm_verify_spm and carries no options.  peer_expiry and bo are the
transport peer_expiry and nak_bo_ivl; raw feeds nak_rb_ivl.  Returns the
C return value, the updated peer and the window-update call, if any. -/
def on_spm (peer_expiry bo raw now : Nat) (sender : PeerSpm)
    (spm : SpmPacket) : Int × PeerSpm × Option WindowUpdateCall :=
  -- if (pgm_uint32_gte (spm->spm_sqn, sender->spm_sqn) || sa_family == 0)
  if pgm_uint32_gte spm.spm_sqn sender.spm_sqn || !sender.nla_set then
    let nak_rb_expiry := now + nak_rb_ivl raw bo
    let sender1 : PeerSpm :=
      { sender with
        nla_set := true, nla := spm.spm_nla, spm_sqn := spm.spm_sqn,
        -- either way bump expiration timer (lines 2944-2946)
        expiry := now + peer_expiry, spmr_expiry := 0 }
    (0, sender1, some ⟨spm.spm_trail, spm.spm_lead, nak_rb_expiry⟩)
  else
    -- does not advance SPM sequence number (lines 2884-2889)
    let sender1 : PeerSpm :=
      { sender with
        dup_spms := sender.dup_spms + 1,
        packets_discarded := sender.packets_discarded + 1,
        expiry := now + peer_expiry, spmr_expiry := 0 }
    (-EINVAL, sender1, none)

/-- A peer that has already applied the SPM with sequence number 5. -/
def peerAfterSpm5 : PeerSpm :=
  (on_spm 1000 100 0 50
    { nla_set := false, nla := 0, spm_sqn := 0, dup_spms := 0,
      packets_discarded := 0, expiry := 0, spmr_expiry := 77 }
    ⟨5, 42, 1, 9⟩).2.1

/-! ### on_nak (transport.c lines 3011-3162)

The sender-side NAK handler.  The transmit window is a consumed interface:
pgm_txw_retransmit_push is modelled as a function from sequence number to
the returned push count, and the NCF emission and rdata_pipe writes are
recorded as events in program order. -/

/-- Observable actions of on_nak, in program order. -/
inductive NakEvent
  /-- send_ncf or send_ncf_list with the sequence numbers of the NAK. -/
  | sendNcf (sqns : List Nat) (isParity : Bool)
  /-- pgm_txw_retransmit_push for one sequence number. -/
  | retransmitPush (sqn : Nat)
  /-- one byte written to rdata_pipe. -/
  | rdataPipeWrite
deriving DecidableEq, Repr

/-- Sender-side statistics counters touched by on_nak. -/
structure SourceStats where
  parity_naks_received : Nat
  selective_naks_received : Nat
  malformed_naks : Nat
  packets_discarded : Nat
deriving DecidableEq, Repr

/-- A parsed incoming NAK as seen by on_nak: the verify return value,
header flags, the NLAs, the leading sequence number and the OPT_NAK_LIST
contents (empty and flagged absent when there is no option chain). -/
structure NakInput where
  is_parity : Bool
  verify_ret : Int
  src_nla : Nat
  grp_nla : Nat
  nak_sqn : Nat
  opt_present : Bool
  opt_len_ok : Bool
  nak_list : List Nat
deriving DecidableEq, Repr

/-- The retransmit-push and pipe-write loop of on_nak (lines 3146-3158):
one pgm_txw_retransmit_push per sequence number, one rdata_pipe byte per
push that returns a positive count. -/
def on_nak_push_loop (push : Nat → Int) : List Nat → List NakEvent
  | [] => []
  | s :: rest =>
    if 0 < push s then
      NakEvent.retransmitPush s :: NakEvent.rdataPipeWrite ::
        on_nak_push_loop push rest
    else
      NakEvent.retransmitPush s :: on_nak_push_loop push rest

/-- Shallow embedding of on_nak (lines 3011-3162).  use_ondemand_parity,
iface and multiaddr are the transport fields consulted; push gives the
pgm_txw_retransmit_push return per sequence number.  Returns the C return
value (none where the C function returns its uninitialised retval), the
updated counters and the events. -/
def on_nak (use_ondemand_parity : Bool) (iface multiaddr : Nat)
    (push : Nat → Int) (st : SourceStats) (p : NakInput) :
    Option Int × SourceStats × List NakEvent :=
  -- parity NAK counting and the use_ondemand_parity gate (lines 3021-3033)
  if p.is_parity ∧ ¬ use_ondemand_parity then
    (none,
     { st with parity_naks_received := st.parity_naks_received + 1,
               malformed_naks := st.malformed_naks + 1,
               packets_discarded := st.packets_discarded + 1 }, [])
  else
    let st := if p.is_parity then
        { st with parity_naks_received := st.parity_naks_received + 1 }
      else
        { st with selective_naks_received := st.selective_naks_received + 1 }
    -- pgm_verify_nak (lines 3036-3041)
    if p.verify_ret ≠ 0 then
      (some p.verify_ret,
       { st with malformed_naks := st.malformed_naks + 1,
                 packets_discarded := st.packets_discarded + 1 }, [])
    -- NAK_SRC_NLA must equal the transport unicast NLA (lines 3045-3054)
    else if p.src_nla ≠ iface then
      (some (-EINVAL),
       { st with malformed_naks := st.malformed_naks + 1,
                 packets_discarded := st.packets_discarded + 1 }, [])
    -- NAK_GRP_NLA must equal the transport multicast group (lines 3056-3073)
    else if p.grp_nla ≠ multiaddr then
      (some (-EINVAL),
       { st with malformed_naks := st.malformed_naks + 1,
                 packets_discarded := st.packets_discarded + 1 }, [])
    -- OPT_NAK_LIST extraction (lines 3082-3135)
    else if p.opt_present ∧ ¬ p.opt_len_ok then
      (some (-EINVAL),
       { st with malformed_naks := st.malformed_naks + 1,
                 packets_discarded := st.packets_discarded + 1 }, [])
    else
      let sqn_list := p.nak_sqn :: (if p.opt_present then p.nak_list else [])
      -- send NCF (or NCF list) immediately (lines 3137-3144), then queue
      -- the retransmit requests (lines 3146-3158)
      (some 0, st,
       NakEvent.sendNcf sqn_list p.is_parity :: on_nak_push_loop push sqn_list)

/-! ### nak_rpt_state and nak_rdata_state (transport.c lines 4420-4559 and
4564-4678)

The per-peer retry sweeps.  Each walks its wait queue from the tail
(oldest entry first, the list below is given in that order), stops at the
first entry whose expiry has not passed, and for each expired entry
either moves it back to BACK_OFF or cancels it.  pgm_rxw_mark_lost and
pgm_rxw_pkt_state_unlink are consumed interfaces; mark_lost calls are
recorded as the lost sequence numbers, backoff_queue pushes as the
returned backoff list (in processing order), and the waiting-list link of
the peer as a flag. -/

/-- Receive-window packet states (pgm_rxw_pkt_state_e). -/
inductive PktState
  | backOff
  | waitNcf
  | waitData
  | haveData
  | lost
  | committed
deriving DecidableEq, Repr

/-- The fields of pgm_rxw_packet_t consulted by the NAK state machine. -/
structure RxEntry where
  sequence_number : Nat
  state : PktState
  t0 : Nat
  nak_rb_expiry : Nat
  nak_rpt_expiry : Nat
  nak_rdata_expiry : Nat
  nak_transmit_count : Nat
  ncf_retry_count : Nat
  data_retry_count : Nat
deriving DecidableEq, Repr

/-- Outcome of one retry sweep. -/
structure SweepResult where
  /-- entries unlinked and pushed onto backoff_queue, in processing order. -/
  backoff : List RxEntry
  /-- sequence numbers passed to pgm_rxw_mark_lost, in processing order. -/
  lost : List Nat
  /-- increments of the NAKS_FAILED_..._RETRIES_EXCEEDED counter. -/
  retries_exceeded : Nat
  /-- whether the peer window was queued on transport.peers_waiting. -/
  waiting : Bool
  /-- entries left on the wait queue (the unexpired suffix). -/
  remaining : List RxEntry
deriving DecidableEq, Repr

/-- Expiration test of the WAIT_NCF sweep: pgm_time_after_eq (now,
nak_rpt_expiry). -/
def rpt_expired (now : Nat) (e : RxEntry) : Bool := e.nak_rpt_expiry ≤ now

/-- Expiration test of the WAIT_DATA sweep: pgm_time_after_eq (now,
nak_rdata_expiry). -/
def rdata_expired (now : Nat) (e : RxEntry) : Bool := e.nak_rdata_expiry ≤ now

/-- The retry path of nak_rpt_state (lines 4496-4505): unlink, back to
BACK_OFF, nak_rb_expiry = pgm_time_now + nak_rb_ivl, with the retry
counter already incremented by the ++ in the cancellation test. -/
def nak_rpt_retry_update (now bo jit : Nat) (rp : RxEntry) : RxEntry :=
  { rp with
    ncf_retry_count := rp.ncf_retry_count + 1,
    state := PktState.backOff,
    nak_rb_expiry := now + nak_rb_ivl jit bo }

/-- The retry path of nak_rdata_state (lines 4636-4644). -/
def nak_rdata_retry_update (now bo jit : Nat) (rp : RxEntry) : RxEntry :=
  { rp with
    data_retry_count := rp.data_retry_count + 1,
    state := PktState.backOff,
    nak_rb_expiry := now + nak_rb_ivl jit bo }

/-- Shallow embedding of the nak_rpt_state sweep (lines 4437-4516) over
the wait_ncf_queue given tail-first.  now is pgm_time_now, retries is
transport.nak_ncf_retries, bo is nak_bo_ivl, jitter gives the successive
raw generator outputs consumed by nak_rb_ivl (index i), validNla is the
is_valid_nla test on the peer NLA. -/
def nak_rpt_state (now retries bo : Nat) (jitter : Nat → Nat)
    (validNla : Bool) : Nat → List RxEntry → SweepResult
  | _, [] => ⟨[], [], 0, false, []⟩
  | i, rp :: rest =>
    if rpt_expired now rp then
      if !validNla then
        -- no peer NLA: mark lost, flag the waiting list, continue
        let r := nak_rpt_state now retries bo jitter validNla i rest
        ⟨r.backoff, rp.sequence_number :: r.lost, r.retries_exceeded, true,
         r.remaining⟩
      else if retries < rp.ncf_retry_count + 1 then
        -- cancellation: ++ncf_retry_count > nak_ncf_retries (line 4464)
        let r := nak_rpt_state now retries bo jitter validNla i rest
        ⟨r.backoff, rp.sequence_number :: r.lost, r.retries_exceeded + 1,
         true, r.remaining⟩
      else
        -- retry back to BACK_OFF
        let r := nak_rpt_state now retries bo jitter validNla (i + 1) rest
        ⟨nak_rpt_retry_update now bo (jitter i) rp :: r.backoff, r.lost,
         r.retries_exceeded, r.waiting, r.remaining⟩
    else
      -- packet expires some time later: stop the sweep
      ⟨[], [], 0, false, rp :: rest⟩

/-- Shallow embedding of the nak_rdata_state sweep (lines 4581-4653) over
the wait_data_queue given tail-first. -/
def nak_rdata_state (now retries bo : Nat) (jitter : Nat → Nat)
    (validNla : Bool) : Nat → List RxEntry → SweepResult
  | _, [] => ⟨[], [], 0, false, []⟩
  | i, rp :: rest =>
    if rdata_expired now rp then
      if !validNla then
        let r := nak_rdata_state now retries bo jitter validNla i rest
        ⟨r.backoff, rp.sequence_number :: r.lost, r.retries_exceeded, true,
         r.remaining⟩
      else if retries < rp.data_retry_count + 1 then
        -- cancellation: ++data_retry_count > nak_data_retries (line 4608)
        let r := nak_rdata_state now retries bo jitter validNla i rest
        ⟨r.backoff, rp.sequence_number :: r.lost, r.retries_exceeded + 1,
         true, r.remaining⟩
      else
        let r := nak_rdata_state now retries bo jitter validNla (i + 1) rest
        ⟨nak_rdata_retry_update now bo (jitter i) rp :: r.backoff, r.lost,
         r.retries_exceeded, r.waiting, r.remaining⟩
    else
      ⟨[], [], 0, false, rp :: rest⟩

/-! ### SPM heartbeat schedule (transport.c lines 4685-4711, 6097-6102,
6348-6395)

The sender timer slice of pgm_transport_t.  The heartbeat interval array
is modelled as a function from index to interval; the configured array is
0, h1, .., hn, 0 so a zero value is the terminator.  send_spm_unlocked is
a consumed emission; dispatch returns the number of SPMs it sent. -/

/-- Sender timer fields of pgm_transport_t. -/
structure SpmTimers where
  spm_heartbeat_state : Nat
  next_heartbeat_spm : Nat
  next_ambient_spm : Nat
  next_poll : Nat
deriving DecidableEq, Repr

/-- Sender timer configuration. -/
structure SpmConfig where
  can_send : Bool
  spm_ambient_interval : Nat
  spm_heartbeat_interval : Nat → Nat

/-- pgm_reset_heartbeat_spm (lines 4685-4711): arm the heartbeat schedule
after an ODATA send.  The source writes spm_heartbeat_state = 1 and then
uses the value with a post-increment as the array index, so the stored
state is 2 and the expiry uses interval index 1; next_poll is pulled
forward when the new heartbeat precedes it. -/
def pgm_reset_heartbeat_spm (c : SpmConfig) (t : SpmTimers) (now : Nat) :
    SpmTimers :=
  let st := 1
  let nhb := now + c.spm_heartbeat_interval st
  let t1 := { t with spm_heartbeat_state := st + 1, next_heartbeat_spm := nhb }
  if nhb < t1.next_poll then { t1 with next_poll := nhb } else t1

/-- The heartbeat re-arm inlined in send_rdata (lines 6097-6102): same
two stores, without the timer-thread prod. -/
def send_rdata_heartbeat_reset (c : SpmConfig) (t : SpmTimers) (now : Nat) :
    SpmTimers :=
  { t with spm_heartbeat_state := 2,
           next_heartbeat_spm := now + c.spm_heartbeat_interval 1 }

/-- The sender half of pgm_timer_dispatch (lines 6360-6384): ambient SPM
first, else a due armed heartbeat advances the schedule or disarms it on
the zero terminator.  Returns the new timers and the number of SPMs
emitted by send_spm_unlocked. -/
def pgm_timer_dispatch (c : SpmConfig) (t : SpmTimers) (now : Nat) :
    SpmTimers × Nat :=
  if c.can_send then
    if t.next_ambient_spm ≤ now then
      ({ t with spm_heartbeat_state := 0,
                next_ambient_spm := now + c.spm_ambient_interval }, 1)
    else if t.spm_heartbeat_state ≠ 0 ∧ t.next_heartbeat_spm ≤ now then
      if c.spm_heartbeat_interval t.spm_heartbeat_state ≠ 0 then
        ({ t with
            next_heartbeat_spm :=
              now + c.spm_heartbeat_interval t.spm_heartbeat_state,
            spm_heartbeat_state := t.spm_heartbeat_state + 1 }, 1)
      else
        ({ t with spm_heartbeat_state := 0 }, 1)
    else (t, 0)
  else (t, 0)

/-! ### pgm_timer_prepare and min_nak_expiry (transport.c lines 4358-4415,
6258-6303)

The per-peer timer view: spmr_expiry (zero meaning unset) and the
tail-entry expiries of the three queues, present only when the queue is
non-empty (next_nak_rb_expiry and friends read the queue tail). -/

/-- The timers of one peer consulted by min_nak_expiry. -/
structure PeerTimers where
  spmr_expiry : Nat
  backoff_tail : Option Nat
  ncf_tail : Option Nat
  data_tail : Option Nat
deriving DecidableEq, Repr

/-- The body of the min_nak_expiry loop for one peer (lines 4369-4411):
each present timer replaces the running expiration when
pgm_time_after_eq (expiration, timer). -/
def peer_min (e : Nat) (p : PeerTimers) : Nat :=
  let e1 := if p.spmr_expiry ≠ 0 ∧ p.spmr_expiry ≤ e then p.spmr_expiry else e
  let e2 := match p.backoff_tail with
    | some x => if x ≤ e1 then x else e1
    | none => e1
  let e3 := match p.ncf_tail with
    | some x => if x ≤ e2 then x else e2
    | none => e2
  match p.data_tail with
  | some x => if x ≤ e3 then x else e3
  | none => e3

/-- min_nak_expiry (lines 4358-4415): fold the peer list. -/
def min_nak_expiry (e : Nat) (peers : List PeerTimers) : Nat :=
  peers.foldl peer_min e

/-- pgm_secs converts seconds to the microsecond time base. -/
def pgm_secs (n : Nat) : Nat := n * 1000000

/-- pgm_to_msecs converts microseconds to milliseconds; it lives in a
time header outside src and is modelled as integer division by 1000. -/
def pgm_to_msecs (x : Int) : Int := x / 1000

/-- Shallow embedding of pgm_timer_prepare (lines 6258-6303).  Returns
the expiration stored into transport.next_poll, the timeout handed to the
event loop in milliseconds, and the ready flag (msec == 0). -/
def pgm_timer_prepare (can_send can_recv : Bool)
    (spm_heartbeat_state next_heartbeat_spm next_ambient_spm : Nat)
    (peers : List PeerTimers) (now : Nat) : Nat × Int × Bool :=
  let expiration0 := now + pgm_secs 30
  let expiration1 :=
    if can_send then
      if spm_heartbeat_state ≠ 0 then min next_heartbeat_spm next_ambient_spm
      else next_ambient_spm
    else expiration0
  let expiration2 :=
    if can_recv then min_nak_expiry expiration1 peers else expiration1
  -- transport->next_poll = pgm_timer->expiration = expiration
  let msec0 := pgm_to_msecs ((expiration2 : Int) - (now : Int))
  let msec := if msec0 < 0 then 0 else min msec0 G_MAXINT
  (expiration2, msec, msec == 0)

/-- The candidate expiries one peer contributes to the minimum. -/
def peerCandidates (p : PeerTimers) : List Nat :=
  (if p.spmr_expiry ≠ 0 then [p.spmr_expiry] else []) ++
    p.backoff_tail.toList ++ p.ncf_tail.toList ++ p.data_tail.toList

/-! ### nak_rb_state and the SPMR check (transport.c lines 4030-4262,
4285-4294)

The BACK_OFF sweep.  It walks the backoff queue tail-first, stops at the
first unexpired entry, and either batches selective NAKs (flushed when 63
sequence numbers accumulate and at loop end, both guarded by is_passive)
or, for an on-demand-parity peer, batches one transmission group and
requests parity packets.  send_nak, send_nak_list, send_parity_nak and
send_spmr emissions are recorded as events. -/

/-- Packets a receiver peer can emit from the NAK state machine. -/
inductive RxSendEvent
  | nak (sqn : Nat)
  | nakList (sqns : List Nat)
  | parityNak (tgSqn pktCnt : Nat)
  | spmr
deriving DecidableEq, Repr

/-- The 32-bit transmission-group mask 0xffffffff << tg_sqn_shift. -/
def tg_sqn_mask (shift : Nat) : Nat := (0xffffffff <<< shift) % 2 ^ 32

/-- State of the selective nak_rb_state loop. -/
structure RbSelectResult where
  events : List RxSendEvent
  waitNcf : List RxEntry
  lost : List Nat
  waiting : Bool
  acc : List Nat
deriving DecidableEq, Repr

/-- The entry update shared by both nak_rb_state branches: unlink, count
the transmission, move to WAIT_NCF with nak_rpt_expiry = now +
nak_rpt_ivl (lines 4111-4128 and 4180-4210). -/
def nak_rb_to_wait_ncf (now rpt_ivl : Nat) (rp : RxEntry) : RxEntry :=
  { rp with
    nak_transmit_count := rp.nak_transmit_count + 1,
    state := PktState.waitNcf,
    nak_rpt_expiry := now + rpt_ivl }

/-- The selective NAK generation loop of nak_rb_state (lines 4153-4227),
accumulating sequence numbers and flushing a 63-entry NAK list mid-loop
when not passive. -/
def nak_rb_select_loop (now rpt_ivl : Nat) (is_passive validNla : Bool) :
    List Nat → List RxEntry → RbSelectResult
  | acc, [] => ⟨[], [], [], false, acc⟩
  | acc, rp :: rest =>
    if rp.nak_rb_expiry ≤ now then
      if !validNla then
        let r := nak_rb_select_loop now rpt_ivl is_passive validNla acc rest
        ⟨r.events, r.waitNcf, rp.sequence_number :: r.lost, true, r.acc⟩
      else
        let rp1 := nak_rb_to_wait_ncf now rpt_ivl rp
        let acc1 := acc ++ [rp.sequence_number]
        if acc1.length = 63 then
          let r := nak_rb_select_loop now rpt_ivl is_passive validNla [] rest
          ⟨(if is_passive then [] else [RxSendEvent.nakList acc1]) ++ r.events,
           rp1 :: r.waitNcf, r.lost, r.waiting, r.acc⟩
        else
          let r := nak_rb_select_loop now rpt_ivl is_passive validNla acc1 rest
          ⟨r.events, rp1 :: r.waitNcf, r.lost, r.waiting, r.acc⟩
    else
      ⟨[], [], [], false, acc⟩

/-- The selective branch of nak_rb_state including the end-of-loop flush
(lines 4229-4239): a batch of one becomes send_nak, more become
send_nak_list, both only when not passive. -/
def nak_rb_state_select (now rpt_ivl : Nat) (is_passive validNla : Bool)
    (q : List RxEntry) : RbSelectResult :=
  let r := nak_rb_select_loop now rpt_ivl is_passive validNla [] q
  { r with events :=
      r.events ++
        (if ¬ is_passive ∧ r.acc ≠ [] then
          (if 1 < r.acc.length then [RxSendEvent.nakList r.acc]
           else [RxSendEvent.nak r.acc.headI])
         else []) }

/-- State of the parity nak_rb_state loop. -/
structure RbParityResult where
  events : List RxSendEvent
  waitNcf : List RxEntry
  lost : List Nat
  waiting : Bool
  nak_tg_sqn : Nat
  nak_pkt_cnt : Nat
deriving DecidableEq, Repr

/-- The parity NAK generation loop of nak_rb_state (lines 4066-4141):
batch expired entries of a single transmission group strictly prior to
the group of the window lead, stopping at a group boundary. -/
def nak_rb_parity_loop (now rpt_ivl shift lead : Nat) (validNla : Bool) :
    Nat → Nat → List RxEntry → RbParityResult
  | nak_tg_sqn, nak_pkt_cnt, [] => ⟨[], [], [], false, nak_tg_sqn, nak_pkt_cnt⟩
  | nak_tg_sqn, nak_pkt_cnt, rp :: rest =>
    if rp.nak_rb_expiry ≤ now then
      if !validNla then
        let r := nak_rb_parity_loop now rpt_ivl shift lead validNla
          nak_tg_sqn nak_pkt_cnt rest
        ⟨r.events, r.waitNcf, rp.sequence_number :: r.lost, true,
         r.nak_tg_sqn, r.nak_pkt_cnt⟩
      else
        let tg := rp.sequence_number &&& tg_sqn_mask shift
        let current_tg := lead &&& tg_sqn_mask shift
        if (nak_pkt_cnt ≠ 0 ∧ tg = nak_tg_sqn) ∨
            (nak_pkt_cnt = 0 ∧ tg ≠ current_tg) then
          let rp1 := nak_rb_to_wait_ncf now rpt_ivl rp
          let tg1 := if nak_pkt_cnt = 0 then tg else nak_tg_sqn
          let r := nak_rb_parity_loop now rpt_ivl shift lead validNla
            tg1 (nak_pkt_cnt + 1) rest
          ⟨r.events, rp1 :: r.waitNcf, r.lost, r.waiting, r.nak_tg_sqn,
           r.nak_pkt_cnt⟩
        else
          -- different transmission group: stop
          ⟨[], [], [], false, nak_tg_sqn, nak_pkt_cnt⟩
    else
      ⟨[], [], [], false, nak_tg_sqn, nak_pkt_cnt⟩

/-- The parity branch of nak_rb_state including its flush (lines
4143-4146): when any packets were batched a parity NAK is sent; the C
code has no is_passive test on this path. -/
def nak_rb_state_parity (now rpt_ivl shift lead : Nat) (validNla : Bool)
    (q : List RxEntry) : RbParityResult :=
  let r := nak_rb_parity_loop now rpt_ivl shift lead validNla 0 0 q
  { r with events :=
      r.events ++
        (if r.nak_pkt_cnt ≠ 0 then
          [RxSendEvent.parityNak r.nak_tg_sqn r.nak_pkt_cnt]
         else []) }

/-- nak_rb_state (lines 4030-4262): the parity branch runs for an
on-demand-parity peer, the selective branch otherwise. -/
def nak_rb_state (now rpt_ivl shift lead : Nat)
    (is_passive validNla use_ondemand_parity : Bool) (q : List RxEntry) :
    List RxSendEvent :=
  if use_ondemand_parity then
    (nak_rb_state_parity now rpt_ivl shift lead validNla q).events
  else
    (nak_rb_state_select now rpt_ivl is_passive validNla q).events

/-- The SPMR check of check_peer_nak_state (lines 4285-4294): a due
spmr_expiry is cleared for a passive transport, otherwise send_spmr runs
(which sends a multicast and a unicast SPMR and clears spmr_expiry,
lines 3596-3617). -/
def check_spmr (is_passive : Bool) (now spmr_expiry : Nat) :
    Nat × List RxSendEvent :=
  if spmr_expiry ≠ 0 ∧ spmr_expiry ≤ now then
    if is_passive then (0, [])
    else (0, [RxSendEvent.spmr, RxSendEvent.spmr])
  else (spmr_expiry, [])

end OpenPGM

namespace OpenPGM

/-- C10: pgm_set_nonblocking returns a non-negative value and sets
O_NONBLOCK on both pipe descriptors, but the flag word applied to the read
end filedes[0] is the one previously read from the write end filedes[1];
the F_GETFL issued on the read end is discarded, so the result is
independent of the read-end flags. -/
theorem c10_set_nonblocking_uses_write_end_flags (p q : PipeFlags)
    (h : q.writeEnd = p.writeEnd) :
    0 ≤ (pgm_set_nonblocking p).1 ∧
    (pgm_set_nonblocking p).2.readEnd.testBit 11 = true ∧
    (pgm_set_nonblocking p).2.writeEnd.testBit 11 = true ∧
    (pgm_set_nonblocking p).2.readEnd = p.writeEnd ||| O_NONBLOCK ∧
    pgm_set_nonblocking q = pgm_set_nonblocking p := by
  refine ⟨by simp [pgm_set_nonblocking], ?_, ?_, by rfl, ?_⟩
  · simp [pgm_set_nonblocking, O_NONBLOCK, Nat.testBit_or]
    right; decide
  · simp [pgm_set_nonblocking, O_NONBLOCK, Nat.testBit_or]
    right; decide
  · simp [pgm_set_nonblocking, h]

/-- Witness for C10 at a concrete pipe pair with distinct flag words. -/
theorem c10_set_nonblocking_witness :
    (PipeFlags.mk 7 1).writeEnd = (PipeFlags.mk 5 1).writeEnd ∧
    (0 ≤ (pgm_set_nonblocking ⟨5, 1⟩).1 ∧
     (pgm_set_nonblocking ⟨5, 1⟩).2.readEnd.testBit 11 = true ∧
     (pgm_set_nonblocking ⟨5, 1⟩).2.writeEnd.testBit 11 = true ∧
     (pgm_set_nonblocking ⟨5, 1⟩).2.readEnd = (PipeFlags.mk 5 1).writeEnd ||| O_NONBLOCK ∧
     pgm_set_nonblocking ⟨7, 1⟩ = pgm_set_nonblocking ⟨5, 1⟩) :=
  ⟨by decide, c10_set_nonblocking_uses_write_end_flags ⟨5, 1⟩ ⟨7, 1⟩ (by decide)⟩

/-- C8: a packet entering BACK_OFF at time t0 receives
nak_rb_expiry = t0 + g_rand_int_range (rand, 1, nak_bo_ivl); for
nak_bo_ivl at least 2 this lies strictly between t0 and t0 + nak_bo_ivl,
and every value of the interval 1 .. nak_bo_ivl - 1 is attained by some
generator output. -/
theorem c8_backoff_expiry_strictly_between (t0 raw bo : Nat) (h : 2 ≤ bo) :
    t0 < on_odata_nak_rb_expiry t0 raw bo ∧
    on_odata_nak_rb_expiry t0 raw bo < t0 + bo ∧
    (∀ v, 1 ≤ v → v < bo → ∃ r, nak_rb_ivl r bo = v) := by
  have hpos : 0 < bo - 1 := by omega
  have hlt : raw % (bo - 1) < bo - 1 := Nat.mod_lt _ hpos
  refine ⟨?_, ?_, ?_⟩
  · simp [on_odata_nak_rb_expiry, nak_rb_ivl, g_rand_int_range]
  · simp only [on_odata_nak_rb_expiry, nak_rb_ivl, g_rand_int_range]
    omega
  · intro v hv1 hv2
    refine ⟨v - 1, ?_⟩
    simp only [nak_rb_ivl, g_rand_int_range]
    rw [Nat.mod_eq_of_lt (by omega)]
    omega

/-- Witness for C8 at t0 = 10, raw draw 5, nak_bo_ivl = 3. -/
theorem c8_backoff_expiry_witness :
    2 ≤ 3 ∧
    (10 < on_odata_nak_rb_expiry 10 5 3 ∧
     on_odata_nak_rb_expiry 10 5 3 < 10 + 3 ∧
     (∀ v, 1 ≤ v → v < 3 → ∃ r, nak_rb_ivl r 3 = v)) :=
  ⟨by decide, c8_backoff_expiry_strictly_between 10 5 3 (by decide)⟩

/-- C6 counterexample: on a bound transport, pgm_transport_set_send_only
does not return -EINVAL and does change the configuration, refuting the
claim that every setter rejects calls after bind. -/
theorem c6_counterexample_set_send_only_after_bind :
    ¬ ((pgm_transport_set_send_only boundConfig).1 = -EINVAL ∧
       (pgm_transport_set_send_only boundConfig).2 = boundConfig) := by
  decide

/-- C6 amended: the parameter setters that carry the is_bound guard
(nak_bo_ivl, nak_rpt_ivl, nak_rdata_ivl, nak_data_retries,
nak_ncf_retries) return -EINVAL on a bound transport and leave the
configuration unchanged, while pgm_transport_set_fec (with valid FEC
parameters), pgm_transport_set_send_only and pgm_transport_set_recv_only
lack the guard: they return 0 and modify the configuration even after
bind. -/
theorem c6_setters_after_bind (t : TransportConfig) (usec cnt : Nat)
    (pro ond var passive : Bool) (h : t.is_bound = true) :
    pgm_transport_set_nak_bo_ivl t usec = (-EINVAL, t) ∧
    pgm_transport_set_nak_rpt_ivl t usec = (-EINVAL, t) ∧
    pgm_transport_set_nak_rdata_ivl t usec = (-EINVAL, t) ∧
    pgm_transport_set_nak_data_retries t cnt = (-EINVAL, t) ∧
    pgm_transport_set_nak_ncf_retries t cnt = (-EINVAL, t) ∧
    pgm_transport_set_fec t pro ond var 255 4 =
      (0, { t with use_proactive_parity := pro, use_ondemand_parity := ond,
                   use_varpkt_len := var, rs_n := 255, rs_k := 4,
                   tg_sqn_shift := pgm_power2_log2 4 }) ∧
    pgm_transport_set_send_only t = (0, { t with can_recv := false }) ∧
    pgm_transport_set_recv_only t passive =
      (0, { t with can_send := false, is_passive := passive }) := by
  refine ⟨?_, ?_, ?_, ?_, ?_, ?_, rfl, rfl⟩
  · simp [pgm_transport_set_nak_bo_ivl, h]
  · simp [pgm_transport_set_nak_rpt_ivl, h]
  · simp [pgm_transport_set_nak_rdata_ivl, h]
  · simp [pgm_transport_set_nak_data_retries, h]
  · simp [pgm_transport_set_nak_ncf_retries, h]
  · rw [pgm_transport_set_fec]
    rw [if_neg (by decide), if_neg (by decide), if_neg (by decide),
      if_neg (by decide)]

/-- Witness for C6 amended on the concrete bound configuration. -/
theorem c6_setters_after_bind_witness :
    boundConfig.is_bound = true ∧
    pgm_transport_set_nak_bo_ivl boundConfig 7 = (-EINVAL, boundConfig) ∧
    (pgm_transport_set_send_only boundConfig).1 = 0 :=
  ⟨by decide,
   (c6_setters_after_bind boundConfig 7 9 true false true true (by decide)).1,
   by decide⟩

/-- C7 counterexample: send_nak_list passes use_router_alert = FALSE to
pgm_sendto (line 3908), so a NAK with an OPT_NAK_LIST goes out on the
plain descriptor, refuting the claim that every NAK is sent on the
router-alert descriptor. -/
theorem c7_counterexample_nak_list_regular_socket :
    send_nak_list_sendto.use_router_alert = false := by
  decide

/-- An expired WAIT_NCF entry whose incremented retry count stays within
nak_ncf_retries is moved back to BACK_OFF with a fresh expiry. -/
theorem nak_rpt_state_retry_mem (now retries bo : Nat) (jitter : Nat → Nat) :
    ∀ (i : Nat) (q : List RxEntry) (rp : RxEntry),
      rp ∈ q.takeWhile (rpt_expired now) → rp.ncf_retry_count < retries →
      ∃ j, nak_rpt_retry_update now bo j rp ∈
        (nak_rpt_state now retries bo jitter true i q).backoff := by
  intro i q
  induction q generalizing i with
  | nil => simp
  | cons a t ih =>
    intro rp hmem hlt
    by_cases he : rpt_expired now a
    · rw [List.takeWhile_cons_of_pos he] at hmem
      rcases List.mem_cons.mp hmem with h | h
      · subst h
        have hcond : ¬ retries < rp.ncf_retry_count + 1 := by omega
        exact ⟨jitter i, by simp [nak_rpt_state, he, hcond]⟩
      · by_cases hc : retries < a.ncf_retry_count + 1
        · obtain ⟨j, hj⟩ := ih i rp h hlt
          refine ⟨j, ?_⟩
          simpa [nak_rpt_state, he, hc] using hj
        · obtain ⟨j, hj⟩ := ih (i + 1) rp h hlt
          refine ⟨j, ?_⟩
          simp [nak_rpt_state, he, hc]
          exact Or.inr hj
    · rw [List.takeWhile_cons_of_neg he] at hmem
      simp at hmem

/-- An expired WAIT_NCF entry whose incremented retry count exceeds
nak_ncf_retries is marked lost and the peer is flagged for flushing. -/
theorem nak_rpt_state_lost_mem (now retries bo : Nat) (jitter : Nat → Nat) :
    ∀ (i : Nat) (q : List RxEntry) (rp : RxEntry),
      rp ∈ q.takeWhile (rpt_expired now) → retries ≤ rp.ncf_retry_count →
      rp.sequence_number ∈ (nak_rpt_state now retries bo jitter true i q).lost ∧
      (nak_rpt_state now retries bo jitter true i q).waiting = true := by
  intro i q
  induction q generalizing i with
  | nil => simp
  | cons a t ih =>
    intro rp hmem hle
    by_cases he : rpt_expired now a
    · rw [List.takeWhile_cons_of_pos he] at hmem
      rcases List.mem_cons.mp hmem with h | h
      · subst h
        have hcond : retries < rp.ncf_retry_count + 1 := by omega
        simp [nak_rpt_state, he, hcond]
      · by_cases hc : retries < a.ncf_retry_count + 1
        · have hih := ih i rp h hle
          refine ⟨?_, ?_⟩ <;> simp [nak_rpt_state, he, hc]
          exact Or.inr hih.1
        · have hih := ih (i + 1) rp h hle
          refine ⟨?_, ?_⟩ <;> simp [nak_rpt_state, he, hc]
          · exact hih.1
          · exact hih.2
    · rw [List.takeWhile_cons_of_neg he] at hmem
      simp at hmem

/-- The WAIT_NCF sweep increments NAKS_FAILED_NCF_RETRIES_EXCEEDED once
per expired entry whose retry count has reached nak_ncf_retries. -/
theorem nak_rpt_state_exceeded_count (now retries bo : Nat)
    (jitter : Nat → Nat) :
    ∀ (i : Nat) (q : List RxEntry),
      (nak_rpt_state now retries bo jitter true i q).retries_exceeded =
        ((q.takeWhile (rpt_expired now)).filter
          fun e => retries ≤ e.ncf_retry_count).length := by
  intro i q
  induction q generalizing i with
  | nil => simp [nak_rpt_state]
  | cons a t ih =>
    by_cases he : rpt_expired now a
    · by_cases hc : retries < a.ncf_retry_count + 1
      · have hfe : (retries ≤ a.ncf_retry_count) := by omega
        simp [nak_rpt_state, he, hc, List.takeWhile_cons_of_pos,
          List.filter_cons, hfe, ih i]
      · have hfe : ¬ (retries ≤ a.ncf_retry_count) := by omega
        simp [nak_rpt_state, he, hc, List.takeWhile_cons_of_pos,
          List.filter_cons, hfe, ih (i + 1)]
    · simp [nak_rpt_state, he, List.takeWhile_cons_of_neg]

/-- An expired WAIT_DATA entry whose incremented retry count stays within
nak_data_retries is moved back to BACK_OFF with a fresh expiry. -/
theorem nak_rdata_state_retry_mem (now retries bo : Nat) (jitter : Nat → Nat) :
    ∀ (i : Nat) (q : List RxEntry) (rp : RxEntry),
      rp ∈ q.takeWhile (rdata_expired now) → rp.data_retry_count < retries →
      ∃ j, nak_rdata_retry_update now bo j rp ∈
        (nak_rdata_state now retries bo jitter true i q).backoff := by
  intro i q
  induction q generalizing i with
  | nil => simp
  | cons a t ih =>
    intro rp hmem hlt
    by_cases he : rdata_expired now a
    · rw [List.takeWhile_cons_of_pos he] at hmem
      rcases List.mem_cons.mp hmem with h | h
      · subst h
        have hcond : ¬ retries < rp.data_retry_count + 1 := by omega
        exact ⟨jitter i, by simp [nak_rdata_state, he, hcond]⟩
      · by_cases hc : retries < a.data_retry_count + 1
        · obtain ⟨j, hj⟩ := ih i rp h hlt
          refine ⟨j, ?_⟩
          simpa [nak_rdata_state, he, hc] using hj
        · obtain ⟨j, hj⟩ := ih (i + 1) rp h hlt
          refine ⟨j, ?_⟩
          simp [nak_rdata_state, he, hc]
          exact Or.inr hj
    · rw [List.takeWhile_cons_of_neg he] at hmem
      simp at hmem

/-- An expired WAIT_DATA entry whose incremented retry count exceeds
nak_data_retries is marked lost and the peer is flagged for flushing. -/
theorem nak_rdata_state_lost_mem (now retries bo : Nat) (jitter : Nat → Nat) :
    ∀ (i : Nat) (q : List RxEntry) (rp : RxEntry),
      rp ∈ q.takeWhile (rdata_expired now) → retries ≤ rp.data_retry_count →
      rp.sequence_number ∈
        (nak_rdata_state now retries bo jitter true i q).lost ∧
      (nak_rdata_state now retries bo jitter true i q).waiting = true := by
  intro i q
  induction q generalizing i with
  | nil => simp
  | cons a t ih =>
    intro rp hmem hle
    by_cases he : rdata_expired now a
    · rw [List.takeWhile_cons_of_pos he] at hmem
      rcases List.mem_cons.mp hmem with h | h
      · subst h
        have hcond : retries < rp.data_retry_count + 1 := by omega
        simp [nak_rdata_state, he, hcond]
      · by_cases hc : retries < a.data_retry_count + 1
        · have hih := ih i rp h hle
          refine ⟨?_, ?_⟩ <;> simp [nak_rdata_state, he, hc]
          exact Or.inr hih.1
        · have hih := ih (i + 1) rp h hle
          refine ⟨?_, ?_⟩ <;> simp [nak_rdata_state, he, hc]
          · exact hih.1
          · exact hih.2
    · rw [List.takeWhile_cons_of_neg he] at hmem
      simp at hmem

/-- The WAIT_DATA sweep increments NAKS_FAILED_DATA_RETRIES_EXCEEDED once
per expired entry whose retry count has reached nak_data_retries. -/
theorem nak_rdata_state_exceeded_count (now retries bo : Nat)
    (jitter : Nat → Nat) :
    ∀ (i : Nat) (q : List RxEntry),
      (nak_rdata_state now retries bo jitter true i q).retries_exceeded =
        ((q.takeWhile (rdata_expired now)).filter
          fun e => retries ≤ e.data_retry_count).length := by
  intro i q
  induction q generalizing i with
  | nil => simp [nak_rdata_state]
  | cons a t ih =>
    by_cases he : rdata_expired now a
    · by_cases hc : retries < a.data_retry_count + 1
      · have hfe : (retries ≤ a.data_retry_count) := by omega
        simp [nak_rdata_state, he, hc, List.takeWhile_cons_of_pos,
          List.filter_cons, hfe, ih i]
      · have hfe : ¬ (retries ≤ a.data_retry_count) := by omega
        simp [nak_rdata_state, he, hc, List.takeWhile_cons_of_pos,
          List.filter_cons, hfe, ih (i + 1)]
    · simp [nak_rdata_state, he, List.takeWhile_cons_of_neg]

/-- C1: with a known peer NLA, an entry in the expired tail prefix of the
WAIT_NCF (resp. WAIT_DATA) queue whose incremented retry counter does not
exceed nak_ncf_retries (resp. nak_data_retries) is unlinked and moved
back to BACK_OFF with a fresh nak_rb_expiry of now + nak_rb_ivl and the
counter incremented; otherwise its sequence number is marked LOST via
pgm_rxw_mark_lost, the peer is queued on the waiting list, and the
NAKS_FAILED_NCF (resp. DATA)_RETRIES_EXCEEDED counter increments exactly
once per such entry, all in the result of the sweep. -/
theorem c1_retry_sweeps (now ncf_retries data_retries bo : Nat)
    (jitter : Nat → Nat) (i : Nat) (qncf qdata : List RxEntry)
    (rp rq : RxEntry)
    (hp : rp ∈ qncf.takeWhile (rpt_expired now))
    (hq : rq ∈ qdata.takeWhile (rdata_expired now)) :
    (rp.ncf_retry_count < ncf_retries →
      ∃ j, { rp with
              ncf_retry_count := rp.ncf_retry_count + 1,
              state := PktState.backOff,
              nak_rb_expiry := now + nak_rb_ivl j bo } ∈
        (nak_rpt_state now ncf_retries bo jitter true i qncf).backoff) ∧
    (ncf_retries ≤ rp.ncf_retry_count →
      rp.sequence_number ∈
        (nak_rpt_state now ncf_retries bo jitter true i qncf).lost ∧
      (nak_rpt_state now ncf_retries bo jitter true i qncf).waiting = true) ∧
    (nak_rpt_state now ncf_retries bo jitter true i qncf).retries_exceeded =
      ((qncf.takeWhile (rpt_expired now)).filter
        fun e => ncf_retries ≤ e.ncf_retry_count).length ∧
    (rq.data_retry_count < data_retries →
      ∃ j, { rq with
              data_retry_count := rq.data_retry_count + 1,
              state := PktState.backOff,
              nak_rb_expiry := now + nak_rb_ivl j bo } ∈
        (nak_rdata_state now data_retries bo jitter true i qdata).backoff) ∧
    (data_retries ≤ rq.data_retry_count →
      rq.sequence_number ∈
        (nak_rdata_state now data_retries bo jitter true i qdata).lost ∧
      (nak_rdata_state now data_retries bo jitter true i qdata).waiting =
        true) ∧
    (nak_rdata_state now data_retries bo jitter true i qdata).retries_exceeded =
      ((qdata.takeWhile (rdata_expired now)).filter
        fun e => data_retries ≤ e.data_retry_count).length :=
  ⟨fun h => nak_rpt_state_retry_mem now ncf_retries bo jitter i qncf rp hp h,
   fun h => nak_rpt_state_lost_mem now ncf_retries bo jitter i qncf rp hp h,
   nak_rpt_state_exceeded_count now ncf_retries bo jitter i qncf,
   fun h => nak_rdata_state_retry_mem now data_retries bo jitter i qdata rq hq h,
   fun h => nak_rdata_state_lost_mem now data_retries bo jitter i qdata rq hq h,
   nak_rdata_state_exceeded_count now data_retries bo jitter i qdata⟩

/-- A WAIT_NCF entry expired at time 50 with one retry left. -/
def wRptRetry : RxEntry := ⟨100, PktState.waitNcf, 0, 0, 40, 0, 1, 0, 0⟩

/-- A WAIT_NCF entry expired at time 50 with retries exhausted. -/
def wRptLost : RxEntry := ⟨101, PktState.waitNcf, 0, 0, 45, 0, 1, 1, 0⟩

/-- A WAIT_DATA entry expired at time 50 with one retry left. -/
def wRdataRetry : RxEntry := ⟨200, PktState.waitData, 0, 0, 0, 40, 1, 0, 0⟩

/-- A WAIT_DATA entry expired at time 50 with retries exhausted. -/
def wRdataLost : RxEntry := ⟨201, PktState.waitData, 0, 0, 0, 45, 1, 0, 1⟩

/-- Witness for C1 on two-element queues at now = 50 with retry limit 1. -/
theorem c1_retry_sweeps_witness :
    wRptRetry ∈ [wRptRetry, wRptLost].takeWhile (rpt_expired 50) ∧
    wRdataRetry ∈ [wRdataRetry, wRdataLost].takeWhile (rdata_expired 50) ∧
    ((wRptRetry.ncf_retry_count < 1 →
      ∃ j, { wRptRetry with
              ncf_retry_count := wRptRetry.ncf_retry_count + 1,
              state := PktState.backOff,
              nak_rb_expiry := 50 + nak_rb_ivl j 10 } ∈
        (nak_rpt_state 50 1 10 (fun _ => 0) true 0
          [wRptRetry, wRptLost]).backoff) ∧
    (1 ≤ wRptRetry.ncf_retry_count →
      wRptRetry.sequence_number ∈
        (nak_rpt_state 50 1 10 (fun _ => 0) true 0
          [wRptRetry, wRptLost]).lost ∧
      (nak_rpt_state 50 1 10 (fun _ => 0) true 0
        [wRptRetry, wRptLost]).waiting = true) ∧
    (nak_rpt_state 50 1 10 (fun _ => 0) true 0
      [wRptRetry, wRptLost]).retries_exceeded =
      (([wRptRetry, wRptLost].takeWhile (rpt_expired 50)).filter
        fun e => 1 ≤ e.ncf_retry_count).length ∧
    (wRdataRetry.data_retry_count < 1 →
      ∃ j, { wRdataRetry with
              data_retry_count := wRdataRetry.data_retry_count + 1,
              state := PktState.backOff,
              nak_rb_expiry := 50 + nak_rb_ivl j 10 } ∈
        (nak_rdata_state 50 1 10 (fun _ => 0) true 0
          [wRdataRetry, wRdataLost]).backoff) ∧
    (1 ≤ wRdataRetry.data_retry_count →
      wRdataRetry.sequence_number ∈
        (nak_rdata_state 50 1 10 (fun _ => 0) true 0
          [wRdataRetry, wRdataLost]).lost ∧
      (nak_rdata_state 50 1 10 (fun _ => 0) true 0
        [wRdataRetry, wRdataLost]).waiting = true) ∧
    (nak_rdata_state 50 1 10 (fun _ => 0) true 0
      [wRdataRetry, wRdataLost]).retries_exceeded =
      (([wRdataRetry, wRdataLost].takeWhile (rdata_expired 50)).filter
        fun e => 1 ≤ e.data_retry_count).length) :=
  ⟨by decide, by decide,
   c1_retry_sweeps 50 1 1 10 (fun _ => 0) 0 [wRptRetry, wRptLost]
     [wRdataRetry, wRdataLost] wRptRetry wRdataRetry (by decide) (by decide)⟩

/-- With is_passive, the selective NAK loop emits nothing: both flush
sites are guarded by the is_passive test. -/
theorem nak_rb_select_loop_passive_silent (now rpt_ivl : Nat)
    (validNla : Bool) :
    ∀ (acc : List Nat) (q : List RxEntry),
      (nak_rb_select_loop now rpt_ivl true validNla acc q).events = [] := by
  intro acc q
  induction q generalizing acc with
  | nil => rfl
  | cons rp rest ih =>
    simp only [nak_rb_select_loop]
    split_ifs <;> simp [ih]

/-- C4: a passive receiver emits nothing from the selective branch of
nak_rb_state or from the SPMR check, but the on-demand-parity branch has
no is_passive guard on its send_parity_nak flush: a passive peer with a
known NLA and one expired BACK_OFF entry in a prior transmission group
still sends a parity NAK, contradicting the is_passive contract stated at
pgm_transport_set_recv_only (do not send any request or responses). -/
theorem c4_passive_parity_nak_bug :
    (∀ (now rpt_ivl shift lead : Nat) (validNla : Bool) (q : List RxEntry),
      nak_rb_state now rpt_ivl shift lead true validNla false q = []) ∧
    (∀ now s, (check_spmr true now s).2 = []) ∧
    nak_rb_state 50 10 2 8 true true true
      [⟨1, PktState.backOff, 0, 40, 0, 0, 0, 0, 0⟩] =
      [RxSendEvent.parityNak 0 1] := by
  refine ⟨?_, ?_, ?_⟩
  · intro now rpt_ivl shift lead validNla q
    simp [nak_rb_state, nak_rb_state_select,
      nak_rb_select_loop_passive_silent]
  · intro now s
    simp only [check_spmr]
    split_ifs <;> rfl
  · decide

/-- Serial-number greater-or-equal is reflexive, so an SPM repeating the
last seen sequence number passes the acceptance test of on_spm. -/
theorem pgm_uint32_gte_refl (x : Nat) : pgm_uint32_gte x x = true := by
  simp only [pgm_uint32_gte, decide_eq_true_eq]
  have h1 : x % 2 ^ 32 ≤ x := Nat.mod_le _ _
  show (x + 4294967296 - x % 4294967296) % 4294967296 < 2147483648
  omega

/-- C5 counterexample: re-applying the SPM with sequence number 5 to a
peer that already applied it does not increment DUP_SPMS, refuting the
claim that the second application counts as a duplicate. -/
theorem c5_counterexample_same_spm_twice :
    ¬ ((on_spm 1000 100 0 50 peerAfterSpm5 ⟨5, 42, 1, 9⟩).2.1.dup_spms =
        peerAfterSpm5.dup_spms + 1) := by
  decide

/-- C5 amended: an SPM is accepted exactly when its sequence number is
serial-greater-or-equal the last seen (modulo 2^32) or the peer NLA is
still unknown.  Because the comparison admits equality, re-applying an
already-applied SPM at the same instant is accepted again: the peer state
is unchanged (a genuine no-op) and the identical window update is issued,
but DUP_SPMS does not increment.  DUP_SPMS (and PACKETS_DISCARDED)
increment exactly for a strictly older SPM from a peer with a known NLA,
which leaves the NLA, sequence state and window untouched. -/
theorem c5_on_spm_duplicate_behaviour (pe bo raw now : Nat) (s : PeerSpm)
    (spm : SpmPacket) :
    ((on_spm pe bo raw now s spm).1 = 0 ↔
      (pgm_uint32_gte spm.spm_sqn s.spm_sqn || !s.nla_set) = true) ∧
    ((on_spm pe bo raw now s spm).1 = 0 →
      on_spm pe bo raw now (on_spm pe bo raw now s spm).2.1 spm =
        (0, (on_spm pe bo raw now s spm).2.1,
         some ⟨spm.spm_trail, spm.spm_lead, now + nak_rb_ivl raw bo⟩)) ∧
    ((pgm_uint32_gte spm.spm_sqn s.spm_sqn = false ∧ s.nla_set = true) →
      (on_spm pe bo raw now s spm).1 = -EINVAL ∧
      (on_spm pe bo raw now s spm).2.1.dup_spms = s.dup_spms + 1 ∧
      (on_spm pe bo raw now s spm).2.1.packets_discarded =
        s.packets_discarded + 1 ∧
      (on_spm pe bo raw now s spm).2.1.spm_sqn = s.spm_sqn ∧
      (on_spm pe bo raw now s spm).2.1.nla = s.nla ∧
      (on_spm pe bo raw now s spm).2.2 = none) := by
  by_cases h : (pgm_uint32_gte spm.spm_sqn s.spm_sqn || !s.nla_set) = true
  · refine ⟨by simp [on_spm, h], ?_, ?_⟩
    · intro _
      simp only [on_spm, h, if_pos]
      simp [pgm_uint32_gte_refl]
    · rintro ⟨h1, h2⟩
      simp [h1, h2] at h
  · have hne : (-EINVAL : Int) ≠ 0 := by decide
    refine ⟨by simp [on_spm, h, hne], ?_, ?_⟩
    · intro hz
      simp [on_spm, h, hne] at hz
    · intro _
      simp [on_spm, h]

/-- Witness for C5 amended at the concrete peer that applied SPM 5. -/
theorem c5_on_spm_duplicate_witness :
    ((on_spm 1000 100 0 50 peerAfterSpm5 ⟨5, 42, 1, 9⟩).1 = 0 ↔
      (pgm_uint32_gte 5 peerAfterSpm5.spm_sqn || !peerAfterSpm5.nla_set) = true) ∧
    ((on_spm 1000 100 0 50 peerAfterSpm5 ⟨5, 42, 1, 9⟩).1 = 0 →
      on_spm 1000 100 0 50 (on_spm 1000 100 0 50 peerAfterSpm5 ⟨5, 42, 1, 9⟩).2.1
          ⟨5, 42, 1, 9⟩ =
        (0, (on_spm 1000 100 0 50 peerAfterSpm5 ⟨5, 42, 1, 9⟩).2.1,
         some ⟨1, 9, 50 + nak_rb_ivl 0 100⟩)) ∧
    ((pgm_uint32_gte 5 peerAfterSpm5.spm_sqn = false ∧
        peerAfterSpm5.nla_set = true) →
      (on_spm 1000 100 0 50 peerAfterSpm5 ⟨5, 42, 1, 9⟩).1 = -EINVAL ∧
      (on_spm 1000 100 0 50 peerAfterSpm5 ⟨5, 42, 1, 9⟩).2.1.dup_spms =
        peerAfterSpm5.dup_spms + 1 ∧
      (on_spm 1000 100 0 50 peerAfterSpm5 ⟨5, 42, 1, 9⟩).2.1.packets_discarded =
        peerAfterSpm5.packets_discarded + 1 ∧
      (on_spm 1000 100 0 50 peerAfterSpm5 ⟨5, 42, 1, 9⟩).2.1.spm_sqn =
        peerAfterSpm5.spm_sqn ∧
      (on_spm 1000 100 0 50 peerAfterSpm5 ⟨5, 42, 1, 9⟩).2.1.nla =
        peerAfterSpm5.nla ∧
      (on_spm 1000 100 0 50 peerAfterSpm5 ⟨5, 42, 1, 9⟩).2.2 = none) :=
  c5_on_spm_duplicate_behaviour 1000 100 0 50 peerAfterSpm5 ⟨5, 42, 1, 9⟩

/-- Every sequence number given to the retransmit loop is pushed. -/
theorem on_nak_push_loop_mem (push : Nat → Int) (l : List Nat) :
    ∀ s ∈ l, NakEvent.retransmitPush s ∈ on_nak_push_loop push l := by
  induction l with
  | nil => simp
  | cons a t ih =>
    intro s hs
    rcases List.mem_cons.mp hs with h | h
    · subst h
      by_cases hp : 0 < push s <;> simp [on_nak_push_loop, hp]
    · by_cases hp : 0 < push a <;>
        simp [on_nak_push_loop, hp, ih s h]

/-- The retransmit loop writes exactly one rdata_pipe byte per sequence
number whose pgm_txw_retransmit_push count is positive. -/
theorem on_nak_push_loop_pipe_count (push : Nat → Int) (l : List Nat) :
    (on_nak_push_loop push l).count NakEvent.rdataPipeWrite =
      (l.filter fun s => 0 < push s).length := by
  induction l with
  | nil => simp [on_nak_push_loop]
  | cons a t ih =>
    by_cases hp : 0 < push a <;>
      simp [on_nak_push_loop, hp, List.count_cons, ih, List.filter_cons]

/-- The retransmit loop emits no NCF event. -/
theorem on_nak_push_loop_no_ncf (push : Nat → Int) (l : List Nat)
    (sq : List Nat) (b : Bool) :
    NakEvent.sendNcf sq b ∉ on_nak_push_loop push l := by
  induction l with
  | nil => simp [on_nak_push_loop]
  | cons a t ih =>
    by_cases hp : 0 < push a <;> simp [on_nak_push_loop, hp, ih]

/-- C3: for an incoming selective NAK that passes pgm_verify_nak and the
parity gate, a NAK_SRC_NLA or NAK_GRP_NLA mismatch yields -EINVAL with the
malformed and discarded counters incremented and no retransmit-queue
action; otherwise the NCF (plain or list, matching the NAK list) is sent
before any retransmit push, every sequence number of the NAK (primary
plus list) is pushed onto the transmit-window retransmit queue, and
exactly one byte is written to rdata_pipe per push returning a positive
count. -/
theorem c3_on_nak_behaviour (ond : Bool) (iface multiaddr : Nat)
    (push : Nat → Int) (st : SourceStats) (p : NakInput)
    (hgate : ¬ (p.is_parity ∧ ¬ ond)) (hver : p.verify_ret = 0)
    (hopt : ¬ (p.opt_present ∧ ¬ p.opt_len_ok)) :
    (¬ (p.src_nla = iface ∧ p.grp_nla = multiaddr) →
      on_nak ond iface multiaddr push st p =
        (some (-EINVAL),
         { (if p.is_parity then
              { st with parity_naks_received := st.parity_naks_received + 1 }
            else
              { st with selective_naks_received :=
                  st.selective_naks_received + 1 }) with
           malformed_naks := st.malformed_naks + 1,
           packets_discarded := st.packets_discarded + 1 }, [])) ∧
    (p.src_nla = iface → p.grp_nla = multiaddr →
      (on_nak ond iface multiaddr push st p).1 = some 0 ∧
      (on_nak ond iface multiaddr push st p).2.2 =
        NakEvent.sendNcf
            (p.nak_sqn :: (if p.opt_present then p.nak_list else []))
            p.is_parity ::
          on_nak_push_loop push
            (p.nak_sqn :: (if p.opt_present then p.nak_list else [])) ∧
      (∀ s ∈ p.nak_sqn :: (if p.opt_present then p.nak_list else []),
        NakEvent.retransmitPush s ∈ (on_nak ond iface multiaddr push st p).2.2) ∧
      (on_nak ond iface multiaddr push st p).2.2.count NakEvent.rdataPipeWrite =
        ((p.nak_sqn :: (if p.opt_present then p.nak_list else [])).filter
          fun s => 0 < push s).length) := by
  constructor
  · intro hmm
    by_cases hsrc : p.src_nla = iface
    · have hgrp : p.grp_nla ≠ multiaddr := by tauto
      simp only [on_nak, if_neg hgate, hver, if_neg hopt]
      simp [hsrc, hgrp]
      split <;> simp
    · simp only [on_nak, if_neg hgate, hver]
      simp [hsrc]
      split <;> simp
  · intro hsrc hgrp
    have hrun : on_nak ond iface multiaddr push st p =
        (some 0,
         (if p.is_parity then
            { st with parity_naks_received := st.parity_naks_received + 1 }
          else
            { st with selective_naks_received :=
                st.selective_naks_received + 1 }),
         NakEvent.sendNcf
             (p.nak_sqn :: (if p.opt_present then p.nak_list else []))
             p.is_parity ::
           on_nak_push_loop push
             (p.nak_sqn :: (if p.opt_present then p.nak_list else []))) := by
      simp only [on_nak, if_neg hgate, hver, if_neg hopt]
      simp [hsrc, hgrp]
    refine ⟨by rw [hrun], by rw [hrun], ?_, ?_⟩
    · intro s hs
      rw [hrun]
      exact List.mem_cons_of_mem _ (on_nak_push_loop_mem push _ s hs)
    · rw [hrun]
      rw [List.count_cons]
      simp only [on_nak_push_loop_pipe_count]
      simp

/-- Witness for C3 on a concrete accepted NAK-list with mixed push
results, and the same NAK with a mismatching group NLA. -/
theorem c3_on_nak_witness :
    (¬ ((NakInput.mk false 0 7 9 100 true true [101, 103]).is_parity ∧
        ¬ true) ∧
     (NakInput.mk false 0 7 9 100 true true [101, 103]).verify_ret = 0 ∧
     ¬ ((NakInput.mk false 0 7 9 100 true true [101, 103]).opt_present ∧
        ¬ (NakInput.mk false 0 7 9 100 true true [101, 103]).opt_len_ok)) ∧
    ((NakInput.mk false 0 7 9 100 true true [101, 103]).src_nla = 7 →
     (NakInput.mk false 0 7 9 100 true true [101, 103]).grp_nla = 9 →
      (on_nak true 7 9 (fun s => if s = 101 then 0 else 1) ⟨0, 0, 0, 0⟩
        ⟨false, 0, 7, 9, 100, true, true, [101, 103]⟩).1 = some 0 ∧
      (on_nak true 7 9 (fun s => if s = 101 then 0 else 1) ⟨0, 0, 0, 0⟩
        ⟨false, 0, 7, 9, 100, true, true, [101, 103]⟩).2.2 =
        NakEvent.sendNcf
            ((100 : Nat) ::
              (if (NakInput.mk false 0 7 9 100 true true [101, 103]).opt_present
               then [101, 103] else []))
            false ::
          on_nak_push_loop (fun s => if s = 101 then 0 else 1)
            ((100 : Nat) ::
              (if (NakInput.mk false 0 7 9 100 true true [101, 103]).opt_present
               then [101, 103] else [])) ∧
      (∀ s ∈ (100 : Nat) ::
          (if (NakInput.mk false 0 7 9 100 true true [101, 103]).opt_present
           then [101, 103] else []),
        NakEvent.retransmitPush s ∈
          (on_nak true 7 9 (fun s => if s = 101 then 0 else 1) ⟨0, 0, 0, 0⟩
            ⟨false, 0, 7, 9, 100, true, true, [101, 103]⟩).2.2) ∧
      (on_nak true 7 9 (fun s => if s = 101 then 0 else 1) ⟨0, 0, 0, 0⟩
        ⟨false, 0, 7, 9, 100, true, true, [101, 103]⟩).2.2.count
          NakEvent.rdataPipeWrite =
        (((100 : Nat) ::
            (if (NakInput.mk false 0 7 9 100 true true [101, 103]).opt_present
             then [101, 103] else [])).filter
          fun s => 0 < (if s = 101 then (0 : Int) else 1)).length) :=
  ⟨⟨by decide, by decide, by decide⟩,
   (c3_on_nak_behaviour true 7 9 (fun s => if s = 101 then 0 else 1)
     ⟨0, 0, 0, 0⟩ ⟨false, 0, 7, 9, 100, true, true, [101, 103]⟩
     (by decide) (by decide) (by decide)).2⟩

/-- C2: with can_send, an ODATA send (pgm_reset_heartbeat_spm) or RDATA
send (the inlined re-arm in send_rdata) arms the heartbeat: the state is
written as 1 and post-incremented past index 1 and next_heartbeat_spm
becomes now + spm_heartbeat_interval[1].  A dispatch with the heartbeat
armed and due (and the ambient SPM not due) emits one SPM and either
advances next_heartbeat_spm to now + interval[state] incrementing the
state (non-zero interval) or returns the state to 0 (zero terminator);
once disarmed and with the ambient SPM not due, dispatch emits nothing;
an ambient firing emits an SPM and also resets the heartbeat state to 0. -/
theorem c2_heartbeat_schedule (c : SpmConfig) (t : SpmTimers) (now : Nat)
    (hc : c.can_send = true) :
    ((pgm_reset_heartbeat_spm c t now).spm_heartbeat_state = 2 ∧
     (pgm_reset_heartbeat_spm c t now).next_heartbeat_spm =
       now + c.spm_heartbeat_interval 1 ∧
     (send_rdata_heartbeat_reset c t now).spm_heartbeat_state = 2 ∧
     (send_rdata_heartbeat_reset c t now).next_heartbeat_spm =
       now + c.spm_heartbeat_interval 1) ∧
    (t.spm_heartbeat_state ≠ 0 → t.next_heartbeat_spm ≤ now →
     ¬ t.next_ambient_spm ≤ now →
      (pgm_timer_dispatch c t now).2 = 1 ∧
      (c.spm_heartbeat_interval t.spm_heartbeat_state ≠ 0 →
        (pgm_timer_dispatch c t now).1.next_heartbeat_spm =
          now + c.spm_heartbeat_interval t.spm_heartbeat_state ∧
        (pgm_timer_dispatch c t now).1.spm_heartbeat_state =
          t.spm_heartbeat_state + 1) ∧
      (c.spm_heartbeat_interval t.spm_heartbeat_state = 0 →
        (pgm_timer_dispatch c t now).1.spm_heartbeat_state = 0)) ∧
    (t.next_ambient_spm ≤ now →
      (pgm_timer_dispatch c t now).2 = 1 ∧
      (pgm_timer_dispatch c t now).1.spm_heartbeat_state = 0 ∧
      (pgm_timer_dispatch c t now).1.next_ambient_spm =
        now + c.spm_ambient_interval) ∧
    (t.spm_heartbeat_state = 0 → ¬ t.next_ambient_spm ≤ now →
      pgm_timer_dispatch c t now = (t, 0)) := by
  refine ⟨?_, ?_, ?_, ?_⟩
  · refine ⟨?_, ?_, rfl, rfl⟩ <;>
      · simp only [pgm_reset_heartbeat_spm]
        split <;> rfl
  · intro h1 h2 h3
    by_cases h4 : c.spm_heartbeat_interval t.spm_heartbeat_state = 0
    · simp [pgm_timer_dispatch, hc, h1, h2, h3, h4]
    · simp [pgm_timer_dispatch, hc, h1, h2, h3, h4]
  · intro h1
    simp [pgm_timer_dispatch, hc, h1]
  · intro h1 h2
    simp [pgm_timer_dispatch, hc, h1, h2]

/-- Witness for C2 with the heartbeat array 0, 10, 20, 0 armed at index 2
and due at time 30. -/
theorem c2_heartbeat_schedule_witness :
    (SpmConfig.mk true 1000 (fun i => if i = 1 then 10 else if i = 2 then 20
      else 0)).can_send = true ∧
    ((pgm_timer_dispatch
        ⟨true, 1000, fun i => if i = 1 then 10 else if i = 2 then 20 else 0⟩
        ⟨2, 30, 500, 30⟩ 30).2 = 1 ∧
     (pgm_timer_dispatch
        ⟨true, 1000, fun i => if i = 1 then 10 else if i = 2 then 20 else 0⟩
        ⟨2, 30, 500, 30⟩ 30).1.spm_heartbeat_state = 3) :=
  have h := c2_heartbeat_schedule
    ⟨true, 1000, fun i => if i = 1 then 10 else if i = 2 then 20 else 0⟩
    ⟨2, 30, 500, 30⟩ 30 (by rfl)
  have h2 := h.2.1 (by decide) (by decide) (by decide)
  ⟨rfl, h2.1, (h2.2.1 (by decide)).2⟩

/-- The per-peer fold step of min_nak_expiry computes the minimum of the
running expiration and the candidate expiries of that peer. -/
theorem peer_min_eq_foldl (e : Nat) (p : PeerTimers) :
    peer_min e p = (peerCandidates p).foldl min e := by
  rcases p with ⟨s, b, n, d⟩
  unfold peer_min peerCandidates
  cases b <;> cases n <;> cases d <;>
    by_cases hs : s = 0 <;>
      simp only [hs, ne_eq, not_true_eq_false, not_false_eq_true, false_and,
        if_false, if_true, ite_true, ite_false, Option.toList_some,
        Option.toList_none, List.append_nil, List.nil_append,
        List.cons_append, List.foldl_cons, List.foldl_nil,
        List.singleton_append, true_and] <;>
      split_ifs <;> omega

/-- min_nak_expiry refines the minimum over all per-peer candidate
expiries. -/
theorem min_nak_expiry_eq_foldl (ps : List PeerTimers) :
    ∀ e : Nat, min_nak_expiry e ps =
      (ps.flatMap peerCandidates).foldl min e := by
  induction ps with
  | nil => intro e; rfl
  | cons p t ih =>
    intro e
    show min_nak_expiry (peer_min e p) t = _
    rw [ih, peer_min_eq_foldl]
    simp [List.foldl_append]

/-- C9 counterexample: with can_send, a disarmed heartbeat and the
ambient SPM 60 seconds away, pgm_timer_prepare returns a 60000 ms delay,
refuting the claimed clamp of the returned delay to at most 30 seconds. -/
theorem c9_counterexample_delay_exceeds_30s :
    (pgm_timer_prepare true false 0 0 60000000 [] 0).2.1 = 60000 ∧
    30000 < (pgm_timer_prepare true false 0 0 60000000 [] 0).2.1 := by
  decide

/-- C9 amended: pgm_timer_prepare stores into next_poll the minimum of
the per-peer expiries (spmr and the three queue tails, when can_recv)
folded onto a base that is next_ambient_spm, or its minimum with
next_heartbeat_spm when the heartbeat is armed, when can_send, and
now + 30 s only when can_send is false; the returned millisecond delay is
the expiration minus now divided by 1000, clamped to the range 0 .. G_MAXINT
(not 30 s), with the ready flag exactly when the delay is 0, which happens
in particular whenever the expiration is not in the future. -/
theorem c9_timer_prepare_spec (cs cr : Bool) (hb nhb namb now : Nat)
    (peers : List PeerTimers) :
    (pgm_timer_prepare cs cr hb nhb namb peers now).1 =
      ((if cr then peers.flatMap peerCandidates else []).foldl min
        (if cs then (if hb ≠ 0 then min nhb namb else namb)
         else now + pgm_secs 30)) ∧
    0 ≤ (pgm_timer_prepare cs cr hb nhb namb peers now).2.1 ∧
    (pgm_timer_prepare cs cr hb nhb namb peers now).2.1 ≤ G_MAXINT ∧
    ((pgm_timer_prepare cs cr hb nhb namb peers now).2.2 = true ↔
      (pgm_timer_prepare cs cr hb nhb namb peers now).2.1 = 0) ∧
    ((pgm_timer_prepare cs cr hb nhb namb peers now).1 ≤ now →
      (pgm_timer_prepare cs cr hb nhb namb peers now).2.1 = 0) ∧
    (now ≤ (pgm_timer_prepare cs cr hb nhb namb peers now).1 →
      (pgm_timer_prepare cs cr hb nhb namb peers now).2.1 =
        min ((((pgm_timer_prepare cs cr hb nhb namb peers now).1 - now) /
          1000 : Nat) : Int) G_MAXINT) := by
  refine ⟨?_, ?_, ?_, ?_, ?_, ?_⟩
  · by_cases hcr : cr <;>
      simp [pgm_timer_prepare, hcr, min_nak_expiry_eq_foldl]
  · simp only [pgm_timer_prepare, pgm_to_msecs, G_MAXINT]
    split_ifs <;> omega
  · simp only [pgm_timer_prepare, pgm_to_msecs, G_MAXINT]
    split_ifs <;> omega
  · simp only [pgm_timer_prepare, pgm_to_msecs, G_MAXINT, beq_iff_eq]
  · intro h
    simp only [pgm_timer_prepare, pgm_to_msecs, G_MAXINT, pgm_secs] at h ⊢
    split_ifs at h ⊢ <;> omega
  · intro h
    simp only [pgm_timer_prepare, pgm_to_msecs, G_MAXINT, pgm_secs] at h ⊢
    split_ifs at h ⊢ <;> omega

/-- Witness for C9 amended at a concrete receiver-only transport with one
peer holding a due back-off tail. -/
theorem c9_timer_prepare_witness :
    (pgm_timer_prepare false true 0 0 0 [⟨0, some 40, none, none⟩] 50).1 =
      (((if true then
          ([(⟨0, some 40, none, none⟩ : PeerTimers)]).flatMap peerCandidates
         else []).foldl
        min (if false then (if (0 : Nat) ≠ 0 then min 0 0 else 0)
             else 50 + pgm_secs 30))) ∧
    (pgm_timer_prepare false true 0 0 0 [⟨0, some 40, none, none⟩] 50).2.2 =
      true :=
  have h := c9_timer_prepare_spec false true 0 0 0 50 [⟨0, some 40, none, none⟩]
  ⟨h.1, h.2.2.2.1.mpr (h.2.2.2.2.1 (by decide))⟩

/-- C7 amended: SPM, single NAK, parity NAK, NCF, NCF-list and RDATA are
sent with router alert, while ODATA, SPMR and the NAK-list packet are sent
on the plain descriptor without router alert. -/
theorem c7_router_alert_usage :
    send_spm_sendto.use_router_alert = true ∧
    send_nak_sendto.use_router_alert = true ∧
    send_parity_nak_sendto.use_router_alert = true ∧
    send_ncf_sendto.use_router_alert = true ∧
    send_ncf_list_sendto.use_router_alert = true ∧
    send_rdata_sendto.use_router_alert = true ∧
    send_odata_sendto.use_router_alert = false ∧
    send_spmr_sendto.use_router_alert = false ∧
    send_nak_list_sendto.use_router_alert = false := by
  decide

end OpenPGM
